import Mathlib

/-
Verification of the AHFTE configuration manager
(src/configconfig_manager.py) against its specification.

Shallow embedding notes:
* Python float fields carry only literal constants and file values and are
  subjected solely to order comparisons, so they are modelled as `Rat`.
* The process environment (read once via `os.getenv` when the dataclass
  defaults are evaluated at module import) is modelled as a function
  `Env : String → Option String`; `getenv` applies the empty-string default.
* A parsed JSON document is modelled by `JsonValue`; `json.load` yields
  dicts whose keys are unique (later duplicates overwrite earlier ones
  during parsing), so objects are association lists looked up by first
  match.
* Python raising is modelled with `Except String`; log output is modelled
  as an explicit list of `LogEntry` values returned alongside the result.
* Python dataclasses do not type-check constructor arguments; a field
  value of the wrong JSON type is modelled as a construction failure
  (the same caught-and-logged path as an unexpected keyword argument).
  No claim exercises ill-typed field values, and unnamed fields are
  unaffected either way.
-/

namespace AHFTE

/-- A parsed JSON value, as produced by json.load. -/
inductive JsonValue where
  | null
  | bool (b : Bool)
  | int (n : Int)
  | num (q : Rat)
  | str (s : String)
  | arr (elems : List JsonValue)
  | obj (fields : List (String × JsonValue))

/-- First-match lookup in a parsed JSON object (keys are unique after parsing). -/
def lookupAssoc : List (String × JsonValue) → String → Option JsonValue
  | [], _ => none
  | (k, v) :: rest, key => if k = key then some v else lookupAssoc rest key

/-- The process environment at module-import time. -/
def Env : Type := String → Option String

/-- os.getenv with the empty-string default used throughout the source. -/
def getenv (env : Env) (key : String) : String := (env key).getD ""

/-- Log levels used by the logging calls in the source. -/
inductive LogLevel where
  | info
  | warning
  | error
deriving DecidableEq, Repr

/-- One emitted log record. -/
structure LogEntry where
  level : LogLevel
  msg : String
deriving DecidableEq, Repr

/-- First keyword argument not among the known dataclass field names
(a Python TypeError: unexpected keyword argument). -/
def unknownKey (fields : List (String × JsonValue)) (known : List String) : Option String :=
  (fields.map (fun kv => kv.1)).find? (fun k => !(known.contains k))

/-- Value of a string field: the override when present, else the default. -/
def getStrD (fields : List (String × JsonValue)) (name : String) (dflt : String) : String :=
  match lookupAssoc fields name with
  | some (.str s) => s
  | _ => dflt

/-- Value of a numeric (float) field: the override when present, else the default. -/
def getRatD (fields : List (String × JsonValue)) (name : String) (dflt : Rat) : Rat :=
  match lookupAssoc fields name with
  | some (.num q) => q
  | some (.int n) => (n : Rat)
  | _ => dflt

/-- Value of an integer field: the override when present, else the default. -/
def getIntD (fields : List (String × JsonValue)) (name : String) (dflt : Int) : Int :=
  match lookupAssoc fields name with
  | some (.int n) => n
  | _ => dflt

/-- An override for a string field is absent or a JSON string. -/
def strOk (fields : List (String × JsonValue)) (name : String) : Bool :=
  match lookupAssoc fields name with
  | some (.str _) => true
  | some _ => false
  | none => true

/-- An override for a float field is absent or a JSON number. -/
def ratOk (fields : List (String × JsonValue)) (name : String) : Bool :=
  match lookupAssoc fields name with
  | some (.num _) => true
  | some (.int _) => true
  | some _ => false
  | none => true

/-- An override for an integer field is absent or a JSON integer. -/
def intOk (fields : List (String × JsonValue)) (name : String) : Bool :=
  match lookupAssoc fields name with
  | some (.int _) => true
  | some _ => false
  | none => true

/-- The TradingConfig dataclass. -/
structure TradingConfig where
  exchange_id : String
  trading_pair : String
  timeframe : String
  initial_capital : Rat
  max_position_size : Rat
  max_daily_loss : Rat
  stop_loss_pct : Rat
  take_profit_pct : Rat
  max_open_positions : Int
  lookback_period : Int
  prediction_horizon : Int
  model_update_frequency : Int
  order_timeout : Int
  max_slippage : Rat
deriving DecidableEq, Repr

/-- The dataclass defaults of TradingConfig (all literal constants;
decimal literals written as exact rationals: 0.1 = 1/10, 0.02 = 1/50,
0.01 = 1/100, 0.001 = 1/1000). -/
def TradingConfig.default : TradingConfig where
  exchange_id := "binance"
  trading_pair := "BTC/USDT"
  timeframe := "1m"
  initial_capital := 10000
  max_position_size := 1/10
  max_daily_loss := 1/50
  stop_loss_pct := 1/100
  take_profit_pct := 1/50
  max_open_positions := 3
  lookback_period := 100
  prediction_horizon := 5
  model_update_frequency := 3600
  order_timeout := 30
  max_slippage := 1/1000

/-- The dataclass field names of TradingConfig, in declaration order. -/
def TradingConfig.fieldNames : List String :=
  ["exchange_id", "trading_pair", "timeframe", "initial_capital",
   "max_position_size", "max_daily_loss", "stop_loss_pct", "take_profit_pct",
   "max_open_positions", "lookback_period", "prediction_horizon",
   "model_update_frequency", "order_timeout", "max_slippage"]

/-- asdict of a TradingConfig: the flat field map in declaration order. -/
def TradingConfig.toFields (c : TradingConfig) : List (String × JsonValue) :=
  [("exchange_id", .str c.exchange_id),
   ("trading_pair", .str c.trading_pair),
   ("timeframe", .str c.timeframe),
   ("initial_capital", .num c.initial_capital),
   ("max_position_size", .num c.max_position_size),
   ("max_daily_loss", .num c.max_daily_loss),
   ("stop_loss_pct", .num c.stop_loss_pct),
   ("take_profit_pct", .num c.take_profit_pct),
   ("max_open_positions", .int c.max_open_positions),
   ("lookback_period", .int c.lookback_period),
   ("prediction_horizon", .int c.prediction_horizon),
   ("model_update_frequency", .int c.model_update_frequency),
   ("order_timeout", .int c.order_timeout),
   ("max_slippage", .num c.max_slippage)]

/-- Read one field of a TradingConfig by its dataclass name. -/
def TradingConfig.fieldVal (c : TradingConfig) (name : String) : Option JsonValue :=
  lookupAssoc c.toFields name

/-- Every override value present has the JSON type of its field. -/
def TradingConfig.typesOk (fields : List (String × JsonValue)) : Bool :=
  strOk fields "exchange_id" && strOk fields "trading_pair" &&
  strOk fields "timeframe" && ratOk fields "initial_capital" &&
  ratOk fields "max_position_size" && ratOk fields "max_daily_loss" &&
  ratOk fields "stop_loss_pct" && ratOk fields "take_profit_pct" &&
  intOk fields "max_open_positions" && intOk fields "lookback_period" &&
  intOk fields "prediction_horizon" && intOk fields "model_update_frequency" &&
  intOk fields "order_timeout" && ratOk fields "max_slippage"

/-- The record produced by TradingConfig(**fields): each field takes the
override when named, else its dataclass default. -/
def TradingConfig.build (fields : List (String × JsonValue)) : TradingConfig where
  exchange_id := getStrD fields "exchange_id" TradingConfig.default.exchange_id
  trading_pair := getStrD fields "trading_pair" TradingConfig.default.trading_pair
  timeframe := getStrD fields "timeframe" TradingConfig.default.timeframe
  initial_capital := getRatD fields "initial_capital" TradingConfig.default.initial_capital
  max_position_size := getRatD fields "max_position_size" TradingConfig.default.max_position_size
  max_daily_loss := getRatD fields "max_daily_loss" TradingConfig.default.max_daily_loss
  stop_loss_pct := getRatD fields "stop_loss_pct" TradingConfig.default.stop_loss_pct
  take_profit_pct := getRatD fields "take_profit_pct" TradingConfig.default.take_profit_pct
  max_open_positions := getIntD fields "max_open_positions" TradingConfig.default.max_open_positions
  lookback_period := getIntD fields "lookback_period" TradingConfig.default.lookback_period
  prediction_horizon := getIntD fields "prediction_horizon" TradingConfig.default.prediction_horizon
  model_update_frequency := getIntD fields "model_update_frequency" TradingConfig.default.model_update_frequency
  order_timeout := getIntD fields "order_timeout" TradingConfig.default.order_timeout
  max_slippage := getRatD fields "max_slippage" TradingConfig.default.max_slippage

/-- TradingConfig(**fields): fails on an unexpected keyword argument
(and, per the modelling note above, on an ill-typed override value). -/
def TradingConfig.fromFields (fields : List (String × JsonValue)) : Except String TradingConfig :=
  match unknownKey fields TradingConfig.fieldNames with
  | some k => .error ("TradingConfig got an unexpected keyword argument " ++ k)
  | none =>
    if TradingConfig.typesOk fields then
      .ok (TradingConfig.build fields)
    else
      .error "TradingConfig field value has unexpected type"

/-- TradingConfig.validate from the source: initial_capital must be
positive, max_position_size must satisfy 0 < x ≤ 1, stop_loss_pct must be
positive; checked in that order, first failure raises ValueError. -/
def TradingConfig.validate (c : TradingConfig) : Except String Bool :=
  if c.initial_capital ≤ 0 then
    .error "Initial capital must be positive"
  else if ¬ (0 < c.max_position_size ∧ c.max_position_size ≤ 1) then
    .error "Max position size must be between 0 and 1"
  else if c.stop_loss_pct ≤ 0 then
    .error "Stop loss must be positive"
  else
    .ok true

/-- The FirebaseConfig dataclass. -/
structure FirebaseConfig where
  project_id : String
  credentials_path : String
  database_url : String
deriving DecidableEq, Repr

/-- The dataclass defaults of FirebaseConfig: each field reads an
environment variable, defaulting to the empty string, once at module
import. -/
def FirebaseConfig.default (env : Env) : FirebaseConfig where
  project_id := getenv env "FIREBASE_PROJECT_ID"
  credentials_path := getenv env "FIREBASE_CREDENTIALS_PATH"
  database_url := getenv env "FIREBASE_DATABASE_URL"

/-- The dataclass field names of FirebaseConfig, in declaration order. -/
def FirebaseConfig.fieldNames : List String :=
  ["project_id", "credentials_path", "database_url"]

/-- asdict of a FirebaseConfig. -/
def FirebaseConfig.toFields (c : FirebaseConfig) : List (String × JsonValue) :=
  [("project_id", .str c.project_id),
   ("credentials_path", .str c.credentials_path),
   ("database_url", .str c.database_url)]

/-- Read one field of a FirebaseConfig by its dataclass name. -/
def FirebaseConfig.fieldVal (c : FirebaseConfig) (name : String) : Option JsonValue :=
  lookupAssoc c.toFields name

/-- Every override value present has the JSON type of its field. -/
def FirebaseConfig.typesOk (fields : List (String × JsonValue)) : Bool :=
  strOk fields "project_id" && strOk fields "credentials_path" &&
  strOk fields "database_url"

/-- The record produced by FirebaseConfig(**fields). -/
def FirebaseConfig.build (env : Env) (fields : List (String × JsonValue)) : FirebaseConfig where
  project_id := getStrD fields "project_id" (FirebaseConfig.default env).project_id
  credentials_path := getStrD fields "credentials_path" (FirebaseConfig.default env).credentials_path
  database_url := getStrD fields "database_url" (FirebaseConfig.default env).database_url

/-- FirebaseConfig(**fields). -/
def FirebaseConfig.fromFields (env : Env) (fields : List (String × JsonValue)) :
    Except String FirebaseConfig :=
  match unknownKey fields FirebaseConfig.fieldNames with
  | some k => .error ("FirebaseConfig got an unexpected keyword argument " ++ k)
  | none =>
    if FirebaseConfig.typesOk fields then
      .ok (FirebaseConfig.build env fields)
    else
      .error "FirebaseConfig field value has unexpected type"

/-- getattr on a FirebaseConfig for the three required field names. -/
def FirebaseConfig.getField (c : FirebaseConfig) (f : String) : String :=
  if f = "project_id" then c.project_id
  else if f = "credentials_path" then c.credentials_path
  else c.database_url

/-- The loop body of FirebaseConfig.validate: raise on the first required
field whose value is the empty string (Python falsy). -/
def firebaseCheck (c : FirebaseConfig) : List String → Except String Bool
  | [] => .ok true
  | f :: rest =>
    if c.getField f = "" then .error ("Firebase " ++ f ++ " is required")
    else firebaseCheck c rest

/-- FirebaseConfig.validate from the source: iterates over
project_id, credentials_path, database_url in that order. -/
def FirebaseConfig.validate (c : FirebaseConfig) : Except String Bool :=
  firebaseCheck c ["project_id", "credentials_path", "database_url"]

/-- The APIConfig dataclass. -/
structure APIConfig where
  exchange_api_key : String
  exchange_api_secret : String
  telegram_bot_token : String
  telegram_chat_id : String
deriving DecidableEq, Repr

/-- The dataclass defaults of APIConfig (environment-derived). -/
def APIConfig.default (env : Env) : APIConfig where
  exchange_api_key := getenv env "EXCHANGE_API_KEY"
  exchange_api_secret := getenv env "EXCHANGE_API_SECRET"
  telegram_bot_token := getenv env "TELEGRAM_BOT_TOKEN"
  telegram_chat_id := getenv env "TELEGRAM_CHAT_ID"

/-- The dataclass field names of APIConfig, in declaration order. -/
def APIConfig.fieldNames : List String :=
  ["exchange_api_key", "exchange_api_secret", "telegram_bot_token",
   "telegram_chat_id"]

/-- asdict of an APIConfig. -/
def APIConfig.toFields (c : APIConfig) : List (String × JsonValue) :=
  [("exchange_api_key", .str c.exchange_api_key),
   ("exchange_api_secret", .str c.exchange_api_secret),
   ("telegram_bot_token", .str c.telegram_bot_token),
   ("telegram_chat_id", .str c.telegram_chat_id)]

/-- Read one field of an APIConfig by its dataclass name. -/
def APIConfig.fieldVal (c : APIConfig) (name : String) : Option JsonValue :=
  lookupAssoc c.toFields name

/-- Every override value present has the JSON type of its field. -/
def APIConfig.typesOk (fields : List (String × JsonValue)) : Bool :=
  strOk fields "exchange_api_key" && strOk fields "exchange_api_secret" &&
  strOk fields "telegram_bot_token" && strOk fields "telegram_chat_id"

/-- The record produced by APIConfig(**fields). -/
def APIConfig.build (env : Env) (fields : List (String × JsonValue)) : APIConfig where
  exchange_api_key := getStrD fields "exchange_api_key" (APIConfig.default env).exchange_api_key
  exchange_api_secret := getStrD fields "exchange_api_secret" (APIConfig.default env).exchange_api_secret
  telegram_bot_token := getStrD fields "telegram_bot_token" (APIConfig.default env).telegram_bot_token
  telegram_chat_id := getStrD fields "telegram_chat_id" (APIConfig.default env).telegram_chat_id

/-- APIConfig(**fields). -/
def APIConfig.fromFields (env : Env) (fields : List (String × JsonValue)) :
    Except String APIConfig :=
  match unknownKey fields APIConfig.fieldNames with
  | some k => .error ("APIConfig got an unexpected keyword argument " ++ k)
  | none =>
    if APIConfig.typesOk fields then
      .ok (APIConfig.build env fields)
    else
      .error "APIConfig field value has unexpected type"

/-- APIConfig.validate from the source: warns when either exchange
credential is empty (Python falsy) and always returns True. The first
component is the log output, the second the result. -/
def APIConfig.validate (c : APIConfig) : List LogEntry × Except String Bool :=
  (if c.exchange_api_key = "" ∨ c.exchange_api_secret = "" then
     [⟨LogLevel.warning, "Exchange API credentials not configured"⟩]
   else [],
   .ok true)

/-- The three section instances held by a ConfigManager. -/
structure Sections where
  trading : TradingConfig
  firebase : FirebaseConfig
  api : APIConfig
deriving DecidableEq, Repr

/-- The sections as the Default and Environment steps produce them
(the state of the manager just before _load_from_file). -/
def defaultSections (env : Env) : Sections where
  trading := TradingConfig.default
  firebase := FirebaseConfig.default env
  api := APIConfig.default env

/-- The observable state of the configuration file at load time:
absent, unreadable or unparsable (with the exception text), or parsed
to a JSON value. -/
inductive FileState where
  | absent
  | malformed (e : String)
  | parsed (data : JsonValue)

/-- data.get(key, default-empty-dict) followed by **-unpacking: fails when
the top level is not a JSON object (AttributeError on .get) or when the
value at the key is not an object (TypeError on **-unpacking). -/
def dictGet (j : JsonValue) (key : String) : Except String (List (String × JsonValue)) :=
  match j with
  | .obj kvs =>
    match lookupAssoc kvs key with
    | none => .ok []
    | some (.obj inner) => .ok inner
    | some _ => .error ("argument for " ++ key ++ " is not a mapping")
  | _ => .error "loaded JSON document is not an object"

/-- The warning logged by the except branch of _load_from_file. -/
def loadWarn (e : String) : LogEntry :=
  ⟨LogLevel.warning, "Failed to load config file: " ++ e⟩

/-- The source line TradingConfig(**data.get('trading', {})). -/
def tradingOverlay (data : JsonValue) : Except String TradingConfig :=
  match dictGet data "trading" with
  | .error e => .error e
  | .ok fields => TradingConfig.fromFields fields

/-- The source line FirebaseConfig(**data.get('firebase', {})). -/
def firebaseOverlay (env : Env) (data : JsonValue) : Except String FirebaseConfig :=
  match dictGet data "firebase" with
  | .error e => .error e
  | .ok fields => FirebaseConfig.fromFields env fields

/-- The source line APIConfig(**data.get('api', {})). -/
def apiOverlay (env : Env) (data : JsonValue) : Except String APIConfig :=
  match dictGet data "api" with
  | .error e => .error e
  | .ok fields => APIConfig.fromFields env fields

/-- ConfigManager._load_from_file: on a parsed file, reassigns the three
sections in order trading, firebase, api; any failure is caught, logged as
a warning, and leaves the sections assigned so far (the assignments are
sequential, so a later failure keeps the earlier reassignments). -/
def loadFromFile (env : Env) (s : Sections) (fs : FileState) : Sections × List LogEntry :=
  match fs with
  | .absent => (s, [])
  | .malformed e => (s, [loadWarn e])
  | .parsed data =>
    match tradingOverlay data with
    | .error e => (s, [loadWarn e])
    | .ok t =>
      match firebaseOverlay env data with
      | .error e => ({ s with trading := t }, [loadWarn e])
      | .ok fb =>
        match apiOverlay env data with
        | .error e => ({ s with trading := t, firebase := fb }, [loadWarn e])
        | .ok a =>
          (⟨t, fb, a⟩,
           [⟨LogLevel.info, "Configuration loaded from file"⟩])

/-- The error record logged by _validate_all before re-raising. -/
def validationFailLog (e : String) : LogEntry :=
  ⟨LogLevel.error, "Configuration validation failed: " ++ e⟩

/-- ConfigManager._validate_all: validates trading, then firebase, then
api; the first raise is logged at error level and re-raised (propagated),
so later sections are not checked. -/
def validateAll (s : Sections) : Except String Bool × List LogEntry :=
  match s.trading.validate with
  | .error e => (.error e, [validationFailLog e])
  | .ok _ =>
    match s.firebase.validate with
    | .error e => (.error e, [validationFailLog e])
    | .ok _ =>
      match s.api.validate with
      | (ws, .error e) => (.error e, ws ++ [validationFailLog e])
      | (ws, .ok b) =>
        (.ok b, ws ++ [⟨LogLevel.info, "All configurations validated successfully"⟩])

/-- ConfigManager.__init__: sections from defaults and environment, then
_load_from_file, then _validate_all; construction fails exactly when
validation raises. -/
def ConfigManager.construct (env : Env) (fs : FileState) :
    Except String Sections × List LogEntry :=
  let s0 := defaultSections env
  let loaded := loadFromFile env s0 fs
  match validateAll loaded.1 with
  | (.ok _, vlogs) => (.ok loaded.1, loaded.2 ++ vlogs)
  | (.error e, vlogs) => (.error e, loaded.2 ++ vlogs)

/-- The JSON document written by ConfigManager.save. The dict literal with
keys trading and firebase (and the start of the api entry) is visible in
the source; the tail of the method is missing from the source file.
Modelled from the spec for that tail: save serializes the three current
in-memory sections to the resolved path as a JSON object, each section as
its flat asdict field map. -/
def saveData (s : Sections) : JsonValue :=
  .obj [("trading", .obj s.trading.toFields),
        ("firebase", .obj s.firebase.toFields),
        ("api", .obj s.api.toFields)]

/-- The file state after a successful save: the path holds the serialized
document. -/
def ConfigManager.saveFile (s : Sections) : FileState :=
  .parsed (saveData s)

/-- Top-level keys of a JSON document. -/
def topKeys : JsonValue → List String
  | .obj kvs => kvs.map (fun kv => kv.1)
  | _ => []

/-- The field map a parsed document supplies for a section key: the named
object when the load step would accept it, otherwise the empty map. -/
def sectionOverride (data : JsonValue) (key : String) : List (String × JsonValue) :=
  match dictGet data key with
  | .ok fields => fields
  | .error _ => []

/-! Concrete values used by witnesses and counterexamples. -/

/-- An empty process environment. -/
def env0 : Env := fun _ => none

/-- A section triple that passes all three validators. -/
def sampleValidSections : Sections :=
  ⟨TradingConfig.default, ⟨"proj", "creds", "db"⟩, ⟨"key", "secret", "", ""⟩⟩

/-- A parsed config file overriding a single trading field. -/
def sampleDoc : JsonValue :=
  .obj [("trading", .obj [("initial_capital", .num 5)])]

/-- The field map of the trading section of sampleBadDoc. -/
def badFields : List (String × JsonValue) :=
  [("initial_capital", .num 5), ("bogus", .null)]

/-- A parsed config file whose trading section holds a recognized override
together with an unknown key. -/
def sampleBadDoc : JsonValue := .obj [("trading", .obj badFields)]

/-- A section triple with an invalid trading field and an invalid firebase
field at the same time. -/
def bothInvalidSections : Sections :=
  ⟨{ TradingConfig.default with initial_capital := -1 }, ⟨"", "", ""⟩, ⟨"", "", "", ""⟩⟩

/-- A trading config with a negative initial capital. -/
def capNegCfg : TradingConfig := { TradingConfig.default with initial_capital := -1 }

/-- A trading config with a max position size above 1. -/
def posBigCfg : TradingConfig := { TradingConfig.default with max_position_size := 3/2 }

/-- The passing trading config named by the spec example. -/
def okCfg : TradingConfig :=
  { TradingConfig.default with
      max_position_size := 1
      initial_capital := 1
      stop_loss_pct := 1/100 }

/-- A trading config with a negative max daily loss (not checked by validate). -/
def dailyNegCfg : TradingConfig := { TradingConfig.default with max_daily_loss := -1 }

/-- A firebase config whose project_id is empty. -/
def fbMissingCfg : FirebaseConfig := ⟨"", "x", "y"⟩

/-- An API config with no exchange credentials. -/
def apiEmptyCfg : APIConfig := ⟨"", "", "", ""⟩

/-! Helper lemmas. -/

lemma getStrD_not_named (fields : List (String × JsonValue)) (name : String) (d : String)
    (hn : lookupAssoc fields name = none) : getStrD fields name d = d := by
  simp [getStrD, hn]

lemma getRatD_not_named (fields : List (String × JsonValue)) (name : String) (d : Rat)
    (hn : lookupAssoc fields name = none) : getRatD fields name d = d := by
  simp [getRatD, hn]

lemma getIntD_not_named (fields : List (String × JsonValue)) (name : String) (d : Int)
    (hn : lookupAssoc fields name = none) : getIntD fields name d = d := by
  simp [getIntD, hn]

lemma tradingFromFields_ok (fields : List (String × JsonValue)) (t : TradingConfig)
    (h : TradingConfig.fromFields fields = .ok t) : t = TradingConfig.build fields := by
  unfold TradingConfig.fromFields at h
  rcases hu : unknownKey fields TradingConfig.fieldNames with _ | k
  · rw [hu] at h
    by_cases ht : TradingConfig.typesOk fields
    · simp [ht] at h
      exact h.symm
    · simp [ht] at h
  · rw [hu] at h
    simp at h

lemma firebaseFromFields_ok (env : Env) (fields : List (String × JsonValue))
    (c : FirebaseConfig) (h : FirebaseConfig.fromFields env fields = .ok c) :
    c = FirebaseConfig.build env fields := by
  unfold FirebaseConfig.fromFields at h
  rcases hu : unknownKey fields FirebaseConfig.fieldNames with _ | k
  · rw [hu] at h
    by_cases ht : FirebaseConfig.typesOk fields
    · simp [ht] at h
      exact h.symm
    · simp [ht] at h
  · rw [hu] at h
    simp at h

lemma apiFromFields_ok (env : Env) (fields : List (String × JsonValue))
    (c : APIConfig) (h : APIConfig.fromFields env fields = .ok c) :
    c = APIConfig.build env fields := by
  unfold APIConfig.fromFields at h
  rcases hu : unknownKey fields APIConfig.fieldNames with _ | k
  · rw [hu] at h
    by_cases ht : APIConfig.typesOk fields
    · simp [ht] at h
      exact h.symm
    · simp [ht] at h
  · rw [hu] at h
    simp at h

lemma tradingOverlay_ok (data : JsonValue) (t : TradingConfig)
    (h : tradingOverlay data = .ok t) :
    t = TradingConfig.build (sectionOverride data "trading") := by
  unfold tradingOverlay at h
  rcases hd : dictGet data "trading" with e | fields
  · rw [hd] at h
    simp at h
  · rw [hd] at h
    simp only [sectionOverride, hd]
    exact tradingFromFields_ok fields t h

lemma firebaseOverlay_ok (env : Env) (data : JsonValue) (c : FirebaseConfig)
    (h : firebaseOverlay env data = .ok c) :
    c = FirebaseConfig.build env (sectionOverride data "firebase") := by
  unfold firebaseOverlay at h
  rcases hd : dictGet data "firebase" with e | fields
  · rw [hd] at h
    simp at h
  · rw [hd] at h
    simp only [sectionOverride, hd]
    exact firebaseFromFields_ok env fields c h

lemma apiOverlay_ok (env : Env) (data : JsonValue) (c : APIConfig)
    (h : apiOverlay env data = .ok c) :
    c = APIConfig.build env (sectionOverride data "api") := by
  unfold apiOverlay at h
  rcases hd : dictGet data "api" with e | fields
  · rw [hd] at h
    simp at h
  · rw [hd] at h
    simp only [sectionOverride, hd]
    exact apiFromFields_ok env fields c h

lemma lookupAssoc_congr (name : String) :
    ∀ l1 l2 : List (String × JsonValue),
      List.Forall₂ (fun p q => p.1 = q.1 ∧ (p.1 = name → p.2 = q.2)) l1 l2 →
      lookupAssoc l1 name = lookupAssoc l2 name := by
  intro l1 l2 h
  induction h with
  | nil => rfl
  | cons h1 _ ih =>
    rename_i a b l1 l2 _
    obtain ⟨ka, va⟩ := a
    obtain ⟨kb, vb⟩ := b
    obtain ⟨hk, hv⟩ := h1
    simp only at hk hv
    subst hk
    simp only [lookupAssoc]
    by_cases hcase : ka = name
    · simp [hcase, hv hcase]
    · simp [hcase, ih]

lemma tradingBuild_frame (fields : List (String × JsonValue)) (name : String)
    (hn : lookupAssoc fields name = none) :
    (TradingConfig.build fields).fieldVal name = TradingConfig.default.fieldVal name := by
  simp only [TradingConfig.fieldVal, TradingConfig.toFields, TradingConfig.build]
  apply lookupAssoc_congr
  refine .cons ?_ (.cons ?_ (.cons ?_ (.cons ?_ (.cons ?_ (.cons ?_ (.cons ?_ (.cons ?_
    (.cons ?_ (.cons ?_ (.cons ?_ (.cons ?_ (.cons ?_ (.cons ?_ .nil))))))))))))) <;>
    refine ⟨rfl, fun h => ?_⟩ <;> subst h <;>
    simp [getStrD_not_named _ _ _ hn, getRatD_not_named _ _ _ hn, getIntD_not_named _ _ _ hn]

lemma firebaseBuild_frame (env : Env) (fields : List (String × JsonValue)) (name : String)
    (hn : lookupAssoc fields name = none) :
    (FirebaseConfig.build env fields).fieldVal name = (FirebaseConfig.default env).fieldVal name := by
  simp only [FirebaseConfig.fieldVal, FirebaseConfig.toFields, FirebaseConfig.build]
  apply lookupAssoc_congr
  refine .cons ?_ (.cons ?_ (.cons ?_ .nil)) <;>
    refine ⟨rfl, fun h => ?_⟩ <;> subst h <;>
    simp [getStrD_not_named _ _ _ hn]

lemma apiBuild_frame (env : Env) (fields : List (String × JsonValue)) (name : String)
    (hn : lookupAssoc fields name = none) :
    (APIConfig.build env fields).fieldVal name = (APIConfig.default env).fieldVal name := by
  simp only [APIConfig.fieldVal, APIConfig.toFields, APIConfig.build]
  apply lookupAssoc_congr
  refine .cons ?_ (.cons ?_ (.cons ?_ (.cons ?_ .nil))) <;>
    refine ⟨rfl, fun h => ?_⟩ <;> subst h <;>
    simp [getStrD_not_named _ _ _ hn]

lemma load_parsed_cases (env : Env) (data : JsonValue) :
    ((loadFromFile env (defaultSections env) (.parsed data)).1.trading = TradingConfig.default
      ∨ (loadFromFile env (defaultSections env) (.parsed data)).1.trading
          = TradingConfig.build (sectionOverride data "trading"))
  ∧ ((loadFromFile env (defaultSections env) (.parsed data)).1.firebase = FirebaseConfig.default env
      ∨ (loadFromFile env (defaultSections env) (.parsed data)).1.firebase
          = FirebaseConfig.build env (sectionOverride data "firebase"))
  ∧ ((loadFromFile env (defaultSections env) (.parsed data)).1.api = APIConfig.default env
      ∨ (loadFromFile env (defaultSections env) (.parsed data)).1.api
          = APIConfig.build env (sectionOverride data "api")) := by
  unfold loadFromFile
  rcases h1 : tradingOverlay data with e1 | t
  · simp only [h1]
    simp [defaultSections]
  · rcases h2 : firebaseOverlay env data with e2 | fb
    · simp only [h1, h2]
      simp [defaultSections, tradingOverlay_ok data t h1]
    · rcases h3 : apiOverlay env data with e3 | a
      · simp only [h1, h2, h3]
        simp [defaultSections, tradingOverlay_ok data t h1,
              firebaseOverlay_ok env data fb h2]
      · simp only [h1, h2, h3]
        simp [defaultSections, tradingOverlay_ok data t h1,
              firebaseOverlay_ok env data fb h2, apiOverlay_ok env data a h3]

/-! Claim theorems. -/

/-- C1: for every configuration file that parses to a JSON value and every
section key, loading overrides only the fields named in that section's
JSON object; every field not named there keeps the value it had in the
pre-load (environment-overlaid default) section instance, whichever
section key is present and whether or not the overlay succeeds. -/
theorem c1_partial_override_frame (env : Env) (data : JsonValue) (name : String) :
    (lookupAssoc (sectionOverride data "trading") name = none →
      (loadFromFile env (defaultSections env) (.parsed data)).1.trading.fieldVal name
        = (defaultSections env).trading.fieldVal name)
  ∧ (lookupAssoc (sectionOverride data "firebase") name = none →
      (loadFromFile env (defaultSections env) (.parsed data)).1.firebase.fieldVal name
        = (defaultSections env).firebase.fieldVal name)
  ∧ (lookupAssoc (sectionOverride data "api") name = none →
      (loadFromFile env (defaultSections env) (.parsed data)).1.api.fieldVal name
        = (defaultSections env).api.fieldVal name) := by
  obtain ⟨ht, hf, ha⟩ := load_parsed_cases env data
  refine ⟨fun hn => ?_, fun hn => ?_, fun hn => ?_⟩
  · rcases ht with h | h
    · rw [h]
      rfl
    · rw [h, tradingBuild_frame _ _ hn]
      rfl
  · rcases hf with h | h
    · rw [h]
      rfl
    · rw [h, firebaseBuild_frame _ _ _ hn]
      rfl
  · rcases ha with h | h
    · rw [h]
      rfl
    · rw [h, apiBuild_frame _ _ _ hn]
      rfl

/-- Witness for C1: a file overriding only initial_capital leaves
stop_loss_pct at its default. -/
theorem c1_partial_override_frame_witness :
    lookupAssoc (sectionOverride sampleDoc "trading") "stop_loss_pct" = none
  ∧ (loadFromFile env0 (defaultSections env0) (.parsed sampleDoc)).1.trading.fieldVal "stop_loss_pct"
      = (defaultSections env0).trading.fieldVal "stop_loss_pct" :=
  ⟨rfl, (c1_partial_override_frame env0 sampleDoc "stop_loss_pct").1 rfl⟩

/-- C2: a malformed file (unparsable JSON or I/O failure), and likewise a
parsed file on which a section construction fails, never raises out of the
load step: the step returns normally, logs a warning carrying the failure
text, and the sections keep exactly the values resolved at the point of
failure (a failure at section n keeps the overlays applied to sections
before n and the pre-load values from n on). -/
theorem c2_malformed_load_tolerated (env : Env) (e : String) (data : JsonValue) :
    loadFromFile env (defaultSections env) (.malformed e) = (defaultSections env, [loadWarn e])
  ∧ (tradingOverlay data = .error e →
      loadFromFile env (defaultSections env) (.parsed data)
        = (defaultSections env, [loadWarn e]))
  ∧ (∀ t, tradingOverlay data = .ok t → firebaseOverlay env data = .error e →
      loadFromFile env (defaultSections env) (.parsed data)
        = ({ defaultSections env with trading := t }, [loadWarn e]))
  ∧ (∀ t fb, tradingOverlay data = .ok t → firebaseOverlay env data = .ok fb →
      apiOverlay env data = .error e →
      loadFromFile env (defaultSections env) (.parsed data)
        = ({ defaultSections env with trading := t, firebase := fb }, [loadWarn e])) := by
  refine ⟨rfl, fun h1 => ?_, fun t h1 h2 => ?_, fun t fb h1 h2 h3 => ?_⟩
  · unfold loadFromFile
    simp only [h1]
  · unfold loadFromFile
    simp only [h1, h2]
  · unfold loadFromFile
    simp only [h1, h2, h3]

/-- Witness for C2: invalid JSON and an unexpected-field construction
failure are both absorbed into a warning with the sections unchanged. -/
theorem c2_malformed_load_tolerated_witness :
    loadFromFile env0 (defaultSections env0) (.malformed "Expecting value")
      = (defaultSections env0, [loadWarn "Expecting value"])
  ∧ tradingOverlay sampleBadDoc
      = .error "TradingConfig got an unexpected keyword argument bogus"
  ∧ loadFromFile env0 (defaultSections env0) (.parsed sampleBadDoc)
      = (defaultSections env0,
         [loadWarn "TradingConfig got an unexpected keyword argument bogus"]) :=
  ⟨(c2_malformed_load_tolerated env0 "Expecting value" sampleBadDoc).1, rfl,
   (c2_malformed_load_tolerated env0
      "TradingConfig got an unexpected keyword argument bogus" sampleBadDoc).2.1 rfl⟩

/-- C3: validation runs trading, then firebase, then api; the first raise
is logged at error level and propagated, later sections are not consulted
(a state agreeing on the trading section fails identically whatever its
other sections hold), and a construction whose validation fails propagates
that same error. In particular a state with both an invalid trading field
and an invalid firebase field yields the trading error. -/
theorem c3_validation_order (s s2 : Sections) (e : String) :
    (s.trading.validate = .error e →
      validateAll s = (.error e, [validationFailLog e]))
  ∧ (s.trading.validate = .ok true → s.firebase.validate = .error e →
      validateAll s = (.error e, [validationFailLog e]))
  ∧ (s.trading.validate = .error e → s2.trading = s.trading →
      validateAll s2 = validateAll s)
  ∧ (∀ env fs, (validateAll (loadFromFile env (defaultSections env) fs).1).1 = .error e →
      (ConfigManager.construct env fs).1 = .error e) := by
  refine ⟨fun h1 => ?_, fun h1 h2 => ?_, fun h1 h2 => ?_, fun env fs h1 => ?_⟩
  · unfold validateAll
    simp only [h1]
  · unfold validateAll
    simp only [h1, h2]
  · unfold validateAll
    rw [h2]
    simp only [h1]
  · unfold ConfigManager.construct
    rcases hv : validateAll (loadFromFile env (defaultSections env) fs).1 with ⟨r, logs⟩
    rw [hv] at h1
    simp only at h1
    subst h1
    simp only [hv]

/-- Witness for C3: with initial_capital = -1 and an empty project_id at
the same time, validation yields the trading error, not the firebase one. -/
theorem c3_validation_order_witness :
    bothInvalidSections.trading.validate = .error "Initial capital must be positive"
  ∧ bothInvalidSections.firebase.validate = .error "Firebase project_id is required"
  ∧ validateAll bothInvalidSections
      = (.error "Initial capital must be positive",
         [validationFailLog "Initial capital must be positive"]) :=
  ⟨by norm_num [bothInvalidSections, TradingConfig.validate, TradingConfig.default],
   by simp [bothInvalidSections, FirebaseConfig.validate, firebaseCheck, FirebaseConfig.getField],
   (c3_validation_order bothInvalidSections bothInvalidSections
      "Initial capital must be positive").1
     (by norm_num [bothInvalidSections, TradingConfig.validate, TradingConfig.default])⟩

/-- C4: TradingConfig.validate raises on initial_capital ≤ 0, then on
max_position_size outside (0, 1], then on stop_loss_pct ≤ 0, in that
order, and returns true when none of the three conditions holds. -/
theorem c4_trading_validate_cases (c : TradingConfig) :
    (c.initial_capital ≤ 0 →
      c.validate = .error "Initial capital must be positive")
  ∧ (¬ c.initial_capital ≤ 0 →
      ¬ (0 < c.max_position_size ∧ c.max_position_size ≤ 1) →
      c.validate = .error "Max position size must be between 0 and 1")
  ∧ (¬ c.initial_capital ≤ 0 →
      (0 < c.max_position_size ∧ c.max_position_size ≤ 1) →
      c.stop_loss_pct ≤ 0 →
      c.validate = .error "Stop loss must be positive")
  ∧ (¬ c.initial_capital ≤ 0 →
      (0 < c.max_position_size ∧ c.max_position_size ≤ 1) →
      ¬ c.stop_loss_pct ≤ 0 →
      c.validate = .ok true) := by
  refine ⟨fun h1 => ?_, fun h1 h2 => ?_, fun h1 h2 h3 => ?_, fun h1 h2 h3 => ?_⟩
  · simp [TradingConfig.validate, h1]
  · simp [TradingConfig.validate, h1, h2]
  · simp [TradingConfig.validate, h1, h2, h3]
  · simp [TradingConfig.validate, h1, h2, h3]

/-- Witness for C4: the three examples named by the claim. -/
theorem c4_trading_validate_cases_witness :
    capNegCfg.initial_capital ≤ 0
  ∧ capNegCfg.validate = .error "Initial capital must be positive"
  ∧ ¬ (0 < posBigCfg.max_position_size ∧ posBigCfg.max_position_size ≤ 1)
  ∧ posBigCfg.validate = .error "Max position size must be between 0 and 1"
  ∧ okCfg.validate = .ok true :=
  ⟨by norm_num [capNegCfg, TradingConfig.default],
   (c4_trading_validate_cases capNegCfg).1 (by norm_num [capNegCfg, TradingConfig.default]),
   by norm_num [posBigCfg, TradingConfig.default],
   (c4_trading_validate_cases posBigCfg).2.1
     (by norm_num [posBigCfg, TradingConfig.default])
     (by norm_num [posBigCfg, TradingConfig.default]),
   (c4_trading_validate_cases okCfg).2.2.2
     (by norm_num [okCfg, TradingConfig.default])
     (by norm_num [okCfg, TradingConfig.default])
     (by norm_num [okCfg, TradingConfig.default])⟩

/-- C5: FirebaseConfig.validate raises naming the first empty required
field, checking project_id, credentials_path, database_url in that order,
and returns true when all three are non-empty. -/
theorem c5_firebase_validate_cases (c : FirebaseConfig) :
    (c.project_id = "" →
      c.validate = .error "Firebase project_id is required")
  ∧ (c.project_id ≠ "" → c.credentials_path = "" →
      c.validate = .error "Firebase credentials_path is required")
  ∧ (c.project_id ≠ "" → c.credentials_path ≠ "" → c.database_url = "" →
      c.validate = .error "Firebase database_url is required")
  ∧ (c.project_id ≠ "" → c.credentials_path ≠ "" → c.database_url ≠ "" →
      c.validate = .ok true) := by
  refine ⟨fun h1 => ?_, fun h1 h2 => ?_, fun h1 h2 h3 => ?_, fun h1 h2 h3 => ?_⟩ <;>
    simp [FirebaseConfig.validate, firebaseCheck, FirebaseConfig.getField, h1] <;>
    simp [h2] <;>
    simp [h3]

/-- Witness for C5: an empty project_id with the other two fields
non-empty raises the error naming project_id. -/
theorem c5_firebase_validate_cases_witness :
    fbMissingCfg.project_id = ""
  ∧ fbMissingCfg.validate = .error "Firebase project_id is required" :=
  ⟨rfl, (c5_firebase_validate_cases fbMissingCfg).1 rfl⟩

/-- C6: APIConfig.validate always returns true and never raises; it logs
a warning exactly when one of the exchange credentials is empty. -/
theorem c6_api_validate_advisory (c : APIConfig) :
    c.validate.2 = .ok true
  ∧ (c.exchange_api_key = "" ∨ c.exchange_api_secret = "" →
      c.validate.1 = [⟨LogLevel.warning, "Exchange API credentials not configured"⟩])
  ∧ (c.exchange_api_key ≠ "" → c.exchange_api_secret ≠ "" →
      c.validate.1 = []) := by
  refine ⟨rfl, fun h => ?_, fun h1 h2 => ?_⟩
  · simp [APIConfig.validate, h]
  · simp [APIConfig.validate, h1, h2]

/-- Witness for C6: both credentials empty still returns true, with the
warning emitted. -/
theorem c6_api_validate_advisory_witness :
    (apiEmptyCfg.exchange_api_key = "" ∨ apiEmptyCfg.exchange_api_secret = "")
  ∧ apiEmptyCfg.validate.2 = .ok true
  ∧ apiEmptyCfg.validate.1
      = [⟨LogLevel.warning, "Exchange API credentials not configured"⟩] :=
  ⟨Or.inl rfl, (c6_api_validate_advisory apiEmptyCfg).1,
   (c6_api_validate_advisory apiEmptyCfg).2.1 (Or.inl rfl)⟩

/-- C7: saving a section triple and constructing a fresh manager from the
written file under the same environment yields exactly the saved sections
(the saved trading and firebase sections must validate, as they do for any
manager whose sections were not edited after construction; the api section
always validates). -/
theorem c7_round_trip (env : Env) (s : Sections)
    (ht : s.trading.validate = .ok true) (hf : s.firebase.validate = .ok true) :
    (ConfigManager.construct env (ConfigManager.saveFile s)).1 = .ok s := by
  have hload : loadFromFile env (defaultSections env) (ConfigManager.saveFile s)
      = (s, [⟨LogLevel.info, "Configuration loaded from file"⟩]) := rfl
  unfold ConfigManager.construct
  simp only [hload]
  unfold validateAll
  rw [ht, hf]
  rfl

/-- Witness for C7: a concrete valid section triple survives the
save-then-reconstruct round trip unchanged. -/
theorem c7_round_trip_witness :
    sampleValidSections.trading.validate = .ok true
  ∧ sampleValidSections.firebase.validate = .ok true
  ∧ (ConfigManager.construct env0 (ConfigManager.saveFile sampleValidSections)).1
      = .ok sampleValidSections :=
  ⟨by norm_num [sampleValidSections, TradingConfig.validate, TradingConfig.default],
   by simp [sampleValidSections, FirebaseConfig.validate, firebaseCheck, FirebaseConfig.getField],
   c7_round_trip env0 sampleValidSections
     (by norm_num [sampleValidSections, TradingConfig.validate, TradingConfig.default])
     (by simp [sampleValidSections, FirebaseConfig.validate, firebaseCheck,
               FirebaseConfig.getField])⟩

/-- C8 counterexample: the claim names the top-level keys as trading,
backend, api, but the document written by save keys the second section as
firebase, and no backend key exists at the top level. -/
theorem c8_save_backend_key_counterexample :
    topKeys (saveData sampleValidSections) = ["trading", "firebase", "api"]
  ∧ "backend" ∉ topKeys (saveData sampleValidSections) := by
  exact ⟨rfl, by decide⟩

/-- C8 amended: save serializes the three sections to a JSON object with
top-level keys trading, firebase, api, each a flat field map of that
section, in the shape the loader expects (loading it back recovers the
sections). -/
theorem c8_amended_save_shape (env : Env) (s : Sections) :
    topKeys (saveData s) = ["trading", "firebase", "api"]
  ∧ dictGet (saveData s) "trading" = .ok s.trading.toFields
  ∧ dictGet (saveData s) "firebase" = .ok s.firebase.toFields
  ∧ dictGet (saveData s) "api" = .ok s.api.toFields
  ∧ (loadFromFile env (defaultSections env) (.parsed (saveData s))).1 = s :=
  ⟨rfl, rfl, rfl, rfl, rfl⟩

/-- C9 counterexample: a file whose trading object carries the recognized
override initial_capital = 5 next to the unknown key bogus; the claim says
the recognized override is still applied, but loading leaves
initial_capital at its default 10000. -/
theorem c9_unknown_key_counterexample :
    lookupAssoc (sectionOverride sampleBadDoc "trading") "initial_capital" = some (.num 5)
  ∧ (loadFromFile env0 (defaultSections env0) (.parsed sampleBadDoc)).1.trading.initial_capital
      = 10000
  ∧ (10000 : Rat) ≠ 5 := by
  refine ⟨rfl, rfl, by norm_num⟩

/-- C9 amended: unknown keys at the top level are ignored (loading behaves
exactly as without them, recognized overrides included); an unknown key
inside a section object makes that section construction fail, which is
caught and logged as a warning with no exception, leaving the overrides
from the failing section on unapplied. -/
theorem c9_amended_unknown_keys (env : Env) (s : Sections) (k : String) (v : JsonValue)
    (kvs fields : List (String × JsonValue)) :
    (k ∉ (["trading", "firebase", "api"] : List String) →
      loadFromFile env s (.parsed (.obj ((k, v) :: kvs)))
        = loadFromFile env s (.parsed (.obj kvs)))
  ∧ (lookupAssoc kvs "trading" = some (.obj fields) →
      (unknownKey fields TradingConfig.fieldNames).isSome →
      ∃ e, loadFromFile env (defaultSections env) (.parsed (.obj kvs))
        = (defaultSections env, [loadWarn e])) := by
  constructor
  · intro hk
    simp only [List.mem_cons, List.mem_singleton, not_or] at hk
    obtain ⟨hk1, hk2, hk3, _⟩ := hk
    have ht : tradingOverlay (.obj ((k, v) :: kvs)) = tradingOverlay (.obj kvs) := by
      simp [tradingOverlay, dictGet, lookupAssoc, hk1]
    have hf : firebaseOverlay env (.obj ((k, v) :: kvs)) = firebaseOverlay env (.obj kvs) := by
      simp [firebaseOverlay, dictGet, lookupAssoc, hk2]
    have ha : apiOverlay env (.obj ((k, v) :: kvs)) = apiOverlay env (.obj kvs) := by
      simp [apiOverlay, dictGet, lookupAssoc, hk3]
    unfold loadFromFile
    simp only [ht, hf, ha]
  · intro hmem hunk
    obtain ⟨u, hu⟩ := Option.isSome_iff_exists.mp hunk
    refine ⟨"TradingConfig got an unexpected keyword argument " ++ u, ?_⟩
    have hov : tradingOverlay (.obj kvs)
        = .error ("TradingConfig got an unexpected keyword argument " ++ u) := by
      unfold tradingOverlay
      simp only [dictGet, hmem]
      unfold TradingConfig.fromFields
      rw [hu]
    unfold loadFromFile
    simp only [hov]

/-- Witness for C9 amended: an unknown top-level key is ignored while the
recognized override is applied, and an unknown in-section key aborts the
overlay with a logged warning. -/
theorem c9_amended_unknown_keys_witness :
    "extra" ∉ (["trading", "firebase", "api"] : List String)
  ∧ loadFromFile env0 (defaultSections env0)
        (.parsed (.obj (("extra", .null) :: [("trading", .obj [("initial_capital", .num 5)])])))
      = loadFromFile env0 (defaultSections env0)
          (.parsed (.obj [("trading", .obj [("initial_capital", .num 5)])]))
  ∧ (∃ e, loadFromFile env0 (defaultSections env0) (.parsed sampleBadDoc)
        = (defaultSections env0, [loadWarn e])) :=
  ⟨by decide,
   (c9_amended_unknown_keys env0 (defaultSections env0) "extra" .null
      [("trading", .obj [("initial_capital", .num 5)])] []).1 (by decide),
   (c9_amended_unknown_keys env0 (defaultSections env0) "extra" .null
      [("trading", .obj badFields)] badFields).2 rfl rfl⟩

/-- C10 counterexample: validate returns true on a config whose
max_daily_loss is negative, so validate() = true does not make all
fractional risk parameters positive. -/
theorem c10_invariant_counterexample :
    dailyNegCfg.validate = .ok true ∧ ¬ 0 < dailyNegCfg.max_daily_loss := by
  constructor
  · norm_num [dailyNegCfg, TradingConfig.validate, TradingConfig.default]
  · norm_num [dailyNegCfg, TradingConfig.default]

/-- C10 amended: when validate returns true, initial_capital is positive,
max_position_size lies in (0, 1] and stop_loss_pct is positive;
max_daily_loss, take_profit_pct and max_slippage are not constrained by
validate. -/
theorem c10_amended_invariant (c : TradingConfig) (h : c.validate = .ok true) :
    0 < c.initial_capital ∧ 0 < c.max_position_size ∧ c.max_position_size ≤ 1
      ∧ 0 < c.stop_loss_pct := by
  unfold TradingConfig.validate at h
  split_ifs at h with h1 h2 h3
  exact ⟨not_le.mp h1, h2.1, h2.2, not_le.mp h3⟩

/-- Witness for C10 amended: the default config validates and satisfies
the checked bounds. -/
theorem c10_amended_invariant_witness :
    TradingConfig.default.validate = .ok true
  ∧ (0 < TradingConfig.default.initial_capital
      ∧ 0 < TradingConfig.default.max_position_size
      ∧ TradingConfig.default.max_position_size ≤ 1
      ∧ 0 < TradingConfig.default.stop_loss_pct) :=
  ⟨by norm_num [TradingConfig.validate, TradingConfig.default],
   c10_amended_invariant TradingConfig.default
     (by norm_num [TradingConfig.validate, TradingConfig.default])⟩

end AHFTE
